import Mathlib

/-!
Shallow embedding of the core of the Canadian public-sector bid scraper
(`main.py`, `scrapers.py`, `tasks.py`): the classifier, the matcher and
prioritizer, the reconciliation store (`save_tender_to_db`), the query
endpoints, two representative source extractors, and the orchestrator loop
(`_execute_scans_async` / `_process_tenders`).

Modelling conventions:
- Python strings are `String`; `k in text` (substring test) is `occursIn`.
- `str.lower()` is `lowerStr` (ASCII case folding; the concrete
  inputs used below are ASCII).
- Timestamps (`datetime`) are integer Unix seconds; `timedelta.days` is
  floor division by 86400 (`Int.fdiv`), exactly Python's floor semantics.
- Monetary values (Python floats) are modelled as integers; every claim
  only compares them against integer thresholds.
- The MD5 content hash of `json.dumps(tender_data, sort_keys=True)` is
  modelled by the serialized string itself (`contentHash`): the code only
  ever compares hashes for equality, and two equal dictionaries serialize
  equally, which is the only property the code relies on.
- `list(set(xs))[:5]` (Python set order is unspecified) is modelled as
  first-occurrence de-duplication followed by `take 5`; every claim below
  depends only on which elements survive (a set) or on lengths, both of
  which are order-independent.
- Library collaborators (`strptime` date parsing, float parsing of
  monetary strings) are passed as function parameters to the extractor
  models; no claim depends on their output values.
-/

namespace ProcScan

/-- `listStartsWith n h` : `n` is a (char-)prefix of `h`. -/
def listStartsWith : List Char → List Char → Bool
  | [], _ => true
  | _ :: _, [] => false
  | a :: as_, b :: bs => a == b && listStartsWith as_ bs

/-- `listContainsSeq n h` : `n` occurs contiguously inside `h`
(Python's `n in h` on strings). -/
def listContainsSeq (needle : List Char) : List Char → Bool
  | [] => needle.isEmpty
  | c :: rest => listStartsWith needle (c :: rest) || listContainsSeq needle rest

/-- Python `needle in hay` for strings. -/
def occursIn (needle hay : String) : Bool :=
  listContainsSeq needle.toList hay.toList

/-- ASCII case folding of one character (`str.lower()`; all concrete
inputs below are ASCII, and the taxonomy/relevance keywords are already
lower-case). -/
def charLower (c : Char) : Char :=
  if 'A' ≤ c && c ≤ 'Z' then Char.ofNat (c.toNat + 32) else c

/-- `str.lower()`. -/
def lowerStr (s : String) : String :=
  String.mk (s.toList.map charLower)

/-- Worker for `splitWords`: accumulate the current word (reversed). -/
def splitWordsAux : List Char → List Char → List String
  | [], acc => if acc.isEmpty then [] else [String.mk acc.reverse]
  | c :: rest, acc =>
    if c == ' ' then
      if acc.isEmpty then splitWordsAux rest []
      else String.mk acc.reverse :: splitWordsAux rest []
    else splitWordsAux rest (c :: acc)

/-- Python `str.split()` (split on whitespace, dropping empty parts;
spaces are the only whitespace in the course names it is applied to). -/
def splitWords (s : String) : List String :=
  splitWordsAux s.toList []

/-- Join a list of strings with a separator (Python `sep.join`). -/
def joinWith (sep : String) : List String → String
  | [] => ""
  | [s] => s
  | s :: rest => s ++ sep ++ joinWith sep rest

/-- First-occurrence de-duplication (used to model Python `list(set(xs))`;
see the header note: only the underlying set / length matter to any claim). -/
def dedupFirst : List String → List String
  | [] => []
  | s :: rest => if (dedupFirst rest).contains s then dedupFirst rest else s :: dedupFirst rest

/-- The fixed taxonomy `TKA_COURSES` from `main.py`:
(category, keywords, courses). -/
def TKA_COURSES : List (String × List String × List String) :=
  [ ("project-management",
      (["prince2", "pmp", "project management", "capm", "msp", "portfolio",
        "program management", "pmo", "agile project", "pmbok", "pmi"],
       ["PRINCE2 Foundation", "PRINCE2 Practitioner", "PRINCE2 Agile",
        "PMP Certification", "CAPM", "MSP", "Portfolio Management", "Program Management"])),
    ("it-technical",
      (["itil", "cloud", "aws", "azure", "devops", "docker", "kubernetes",
        "linux", "python", "java", "database", "sql", "cisco", "vmware",
        "microsoft", "oracle", "sap"],
       ["ITIL 4 Foundation", "AWS Solutions Architect", "Azure Fundamentals",
        "DevOps Certification", "Linux Administration", "Python Programming",
        "Java Development"])),
    ("cybersecurity",
      (["security", "cyber", "cissp", "ethical hacking", "penetration",
        "iso 27001", "gdpr", "ceh", "comptia security", "firewall", "soc",
        "siem", "incident response"],
       ["CISSP Certification", "Ethical Hacking", "ISO 27001",
        "Security Awareness", "CompTIA Security+", "CEH", "Penetration Testing"])),
    ("agile-scrum",
      (["agile", "scrum", "safe", "kanban", "sprint", "product owner",
        "scrum master", "lean", "jira", "confluence", "retrospective", "backlog"],
       ["Scrum Master Certification", "Product Owner Certification",
        "SAFe Agilist", "Agile Coach", "Kanban Training"])),
    ("leadership",
      (["leadership", "management", "executive", "coaching", "change management",
        "transformation", "strategic", "team building", "communication", "stakeholder"],
       ["Leadership Excellence", "Executive Coaching", "Change Management",
        "Strategic Leadership", "Team Leadership"])),
    ("data-analytics",
      (["data", "analytics", "power bi", "tableau", "excel",
        "business intelligence", "visualization", "reporting", "dashboard",
        "kpi", "metrics", "sql"],
       ["Power BI Training", "Tableau Certification", "Advanced Excel",
        "Data Analytics", "Business Intelligence", "SQL for Analytics"])),
    ("soft-skills",
      (["communication", "presentation", "negotiation", "time management",
        "emotional intelligence", "conflict", "teamwork", "public speaking",
        "writing"],
       ["Presentation Skills", "Negotiation Skills", "Time Management",
        "Business Communication", "Emotional Intelligence", "Conflict Resolution"])),
    ("compliance",
      (["compliance", "audit", "risk management", "governance", "quality",
        "iso", "regulatory", "health safety", "privacy", "sox", "grc"],
       ["ISO 9001", "Risk Management", "Compliance Training", "Internal Auditor",
        "Health & Safety", "GDPR Compliance"])) ]

/-- The extended relevance-keyword list of `_is_training_related` (`main.py`). -/
def training_keywords : List String :=
  ["training", "formation", "education", "éducation", "learning", "apprentissage",
   "development", "développement", "coaching", "certification", "course", "cours",
   "workshop", "atelier", "seminar", "séminaire", "instruction", "enseignement",
   "professional development", "développement professionnel", "upskilling",
   "reskilling", "curriculum", "programme", "instructor", "instructeur",
   "facilitation", "e-learning", "mentoring", "mentorat", "tutorial", "tutoriel",
   "capacity building", "renforcement des capacités", "skill", "compétence"]

/-- Canonical (pre-storage) tender record: the dictionary shape every
scraper produces and `save_tender_to_db` consumes. -/
structure TenderData where
  tender_id : String
  title : String
  organization : String
  portal : String
  portal_url : String
  value : Int
  closing_date : Option Int
  posted_date : Option Int
  description : String
  location : String
  tender_url : String
  categories : List String
  keywords : List String
  matching_courses : List String
  priority : String
  attachments : List String
  deriving DecidableEq

/-- `_is_training_related` (`main.py` 1178-1193): the combined
title+description text, lower-cased, contains at least one relevance keyword. -/
def _is_training_related (t : TenderData) : Bool :=
  let text := lowerStr (t.title ++ " " ++ t.description)
  training_keywords.any (fun keyword => occursIn keyword text)

/-- Number of a category entry's keywords occurring in the (already
lower-cased) text. -/
def matchCount (e : String × List String × List String) (textLower : String) : Nat :=
  (e.2.1.filter (fun keyword => occursIn keyword textLower)).length

/-- `_extract_categories_from_text` (`main.py` 1195-1206): a category is
appended iff at least 2 of its keywords occur in the lower-cased text. -/
def _extract_categories_from_text (text : String) : List String :=
  let textLower := lowerStr text
  (TKA_COURSES.filter (fun e => 2 ≤ matchCount e textLower)).map (fun e => e.1)

/-- `_extract_keywords_from_text` (`main.py` 1208-1218): every taxonomy
keyword found in the text, in taxonomy order, de-duplicated, first 10. -/
def _extract_keywords_from_text (text : String) : List String :=
  let textLower := lowerStr text
  let all := TKA_COURSES.foldl
    (fun acc e => acc ++ e.2.1.filter
      (fun keyword => occursIn keyword textLower && !(acc.contains keyword))) []
  all.take 10

/-- Does one course of a category entry match the tender text
(`TenderMatcher.match_courses` inner conditions, `main.py` 1288-1297)? -/
def courseMatches (e : String × List String × List String) (text : String)
    (course : String) : Bool :=
  occursIn (lowerStr course) text ||
  (splitWords (lowerStr course)).any (fun kw => kw.length > 3 && occursIn kw text) ||
  (e.2.1.take 5).any (fun kw => occursIn kw text)

/-- `TenderMatcher.match_courses` (`main.py` 1276-1299). -/
def match_courses (t : TenderData) : List String :=
  let text := lowerStr (t.title ++ " " ++ t.description ++ " " ++ joinWith " " t.keywords)
  let collected := t.categories.foldl
    (fun acc cat =>
      match TKA_COURSES.find? (fun e => e.1 == cat) with
      | none => acc
      | some e => acc ++ e.2.2.filter (courseMatches e text)) []
  (dedupFirst collected).take 5

/-- `TenderMatcher.calculate_priority` (`main.py` 1301-1326).
`now` is the value of `datetime.utcnow()` in Unix seconds. -/
def calculate_priority (now : Int) (t : TenderData) : String :=
  match t.closing_date with
  | none => "low"
  | some cd =>
    let days_until_closing : Int := (cd - now).fdiv 86400
    if t.value > 1000000 ∨ days_until_closing < 7 ∨
        3 ≤ t.matching_courses.length ∨ 2 ≤ t.categories.length then
      "high"
    else if t.value > 500000 ∨ days_until_closing < 14 ∨
        1 ≤ t.matching_courses.length then
      "medium"
    else
      "low"

/-! ## Reconciliation store (`save_tender_to_db`, `main.py` 1327-1397) -/

/-- One row of the `tenders` table (`class Tender`, `main.py` 45-71),
restricted to the columns the ingestion path writes. The four
list-valued columns are stored as serialized text blobs, as in the schema.
(The unused `contact_email` / `contact_phone` columns are omitted: no code
path in scope ever writes them.) -/
structure StoredTender where
  id : String
  tender_id : String
  title : String
  organization : String
  portal : String
  portal_url : String
  value : Int
  closing_date : Option Int
  posted_date : Option Int
  description : String
  location : String
  tender_url : String
  categories : String
  keywords : String
  matching_courses : String
  priority : String
  attachments : String
  last_updated : Int
  is_active : Bool
  hash : String
  download_count : Nat
  deriving DecidableEq

/-- `json.dumps` of a list of strings, modelled as a quoted, comma-joined
blob (the code only ever round-trips these blobs whole). -/
def jsonList (xs : List String) : String :=
  "[" ++ joinWith "," (xs.map (fun s => "\"" ++ s ++ "\"")) ++ "]"

/-- Serialization of an optional timestamp (Python `default=str` on
`datetime` / `None`). -/
def serOpt : Option Int → String
  | none => "None"
  | some n => toString n

/-- Model of the content hash
`hashlib.md5(json.dumps(tender_data, sort_keys=True, default=str)).hexdigest()`:
the fields serialized in sorted-key order
(attachments, categories, closing_date, description, keywords, location,
matching_courses, portal, portal_url, posted_date, priority, tender_id,
tender_url, title, value). Only hash equality is ever consulted, and equal
dictionaries serialize (hence hash) equally; see the header note on MD5. -/
def contentHash (t : TenderData) : String :=
  jsonList t.attachments ++ "|" ++ jsonList t.categories ++ "|" ++
  serOpt t.closing_date ++ "|" ++ t.description ++ "|" ++
  jsonList t.keywords ++ "|" ++ t.location ++ "|" ++
  jsonList t.matching_courses ++ "|" ++ t.portal ++ "|" ++ t.portal_url ++ "|" ++
  serOpt t.posted_date ++ "|" ++ t.priority ++ "|" ++ t.tender_id ++ "|" ++
  t.tender_url ++ "|" ++ t.title ++ "|" ++ toString t.value

/-- The insert branch of `save_tender_to_db`: a fresh row whose primary key
is `"<portal>_<tender_id>"`; `last_updated`, `is_active`, `download_count`
take their column defaults (`utcnow`, `True`, `0`). -/
def newTender (now : Int) (h : String) (t : TenderData) : StoredTender :=
  { id := t.portal ++ "_" ++ t.tender_id
    tender_id := t.tender_id
    title := t.title
    organization := t.organization
    portal := t.portal
    portal_url := t.portal_url
    value := t.value
    closing_date := t.closing_date
    posted_date := t.posted_date
    description := t.description
    location := t.location
    tender_url := t.tender_url
    categories := jsonList t.categories
    keywords := jsonList t.keywords
    matching_courses := jsonList t.matching_courses
    priority := t.priority
    attachments := jsonList t.attachments
    last_updated := now
    is_active := true
    hash := h
    download_count := 0 }

/-- The update branch of `save_tender_to_db`: every key of `tender_data`
is written onto the existing row (list fields serialized), then `hash` and
`last_updated` are set. `id`, `is_active` and `download_count` are not
keys of `tender_data` and keep their stored values. -/
def applyUpdate (now : Int) (h : String) (t : TenderData) (r : StoredTender) : StoredTender :=
  { r with
    tender_id := t.tender_id
    title := t.title
    organization := t.organization
    portal := t.portal
    portal_url := t.portal_url
    value := t.value
    closing_date := t.closing_date
    posted_date := t.posted_date
    description := t.description
    location := t.location
    tender_url := t.tender_url
    categories := jsonList t.categories
    keywords := jsonList t.keywords
    matching_courses := jsonList t.matching_courses
    priority := t.priority
    attachments := jsonList t.attachments
    hash := h
    last_updated := now }

/-- Apply `f` to the first row satisfying `p` (the ORM updates the single
row returned by `.first()`; `tender_id` carries a unique index). -/
def updateFirstRow (p : StoredTender → Bool) (f : StoredTender → StoredTender) :
    List StoredTender → List StoredTender
  | [] => []
  | r :: rs => if p r then f r :: rs else r :: updateFirstRow p f rs

/-- `save_tender_to_db` (`main.py` 1327-1397). Returns
`(was_new, new store state)`; `true` = a new row was created, `false` =
updated, unchanged, or dropped for a missing `tender_id` (the code
conflates these in its boolean result). The `except` branch is
unreachable in the pure model (no constraint can fail). -/
def save_tender_to_db (now : Int) (db : List StoredTender) (t : TenderData) :
    Bool × List StoredTender :=
  if t.tender_id = "" then
    (false, db)
  else
    let h := contentHash t
    match db.find? (fun r => r.tender_id == t.tender_id) with
    | some r =>
      if r.hash == h then
        (false, db)
      else
        (false, updateFirstRow (fun r => r.tender_id == t.tender_id) (applyUpdate now h t) db)
    | none =>
      (true, db ++ [newTender now h t])

/-- Number of stored rows carrying a given external identity. -/
def countId (db : List StoredTender) (tid : String) : Nat :=
  (db.filter (fun r => r.tender_id == tid)).length

/-! ## Query API: the detail endpoint (`get_tender_detail`, `main.py` 1664-1698) -/

/-- The one mutation in the detail handler: `tender.download_count += 1`. -/
def bumpDownload (r : StoredTender) : StoredTender :=
  { r with download_count := r.download_count + 1 }

/-- `get_tender_detail` (`main.py` 1664-1698): look up by primary key `id`;
404 (`none`) on miss; on hit increment `download_count`, commit, and return
the row. -/
def get_tender_detail (db : List StoredTender) (tid : String) :
    Option StoredTender × List StoredTender :=
  match db.find? (fun r => r.id == tid) with
  | none => (none, db)
  | some r =>
    (some (bumpDownload r), updateFirstRow (fun r => r.id == tid) bumpDownload db)

/-! ## Source extractors

Two representative extractors are embedded: `scan_canadabuys`
(`main.py` 536-612, the main-module style that filters through
`_is_training_related`) and `ProvincialScrapers.scan_alberta_purchasing`
(`scrapers.py` 60-115, the scrapers-module style that does not).
The HTTP/HTML layer is abstracted to the already-parsed row data each
function loops over; library date/value parsers are function parameters. -/

/-- One parsed row of the CanadaBuys `tenders` CSV, restricted to the
primary column names `_parse_canadabuys_row` reads (the `row.get`
fallback names and the `awards` CSV variant bind the same shape from
alternate columns). -/
structure CBRow where
  reference_number : String
  title_en : String
  org_name_en : String
  contract_value : String
  date_closing : String
  publication_date : String
  description_en : String
  delivery_region_en : String
  deriving DecidableEq

/-- `_parse_canadabuys_row` (`main.py` 569-612), for `csv_type = 'tenders'`:
builds the canonical dictionary, classifying title+description; returns
`None` when the reference number is empty (`tender if tender['tender_id']`).
`pv`/`pd_` model `_parse_value` / `_parse_date`. -/
def _parse_canadabuys_row (pv : String → Int) (pd_ : String → Option Int)
    (row : CBRow) : Option TenderData :=
  let tender_id := row.reference_number
  let fullText := row.title_en ++ " " ++ row.description_en
  let t : TenderData :=
    { tender_id := tender_id
      title := row.title_en
      organization := row.org_name_en
      portal := "CanadaBuys"
      portal_url := "https://canadabuys.canada.ca/en/tender-opportunities/csv"
      value := pv row.contract_value
      closing_date := pd_ row.date_closing
      posted_date := pd_ row.publication_date
      description := row.description_en
      location := row.delivery_region_en
      tender_url := "https://canadabuys.canada.ca/en/tender-opportunities/" ++ tender_id
      categories := _extract_categories_from_text fullText
      keywords := _extract_keywords_from_text fullText
      matching_courses := []
      priority := ""
      attachments := [] }
  if tender_id = "" then none else some t

/-- `scan_canadabuys` (`main.py` 536-567): every CSV row is parsed and kept
iff it parses and `_is_training_related` holds. There is no per-invocation
item cap: the loop runs over the whole dataframe. -/
def scan_canadabuys (pv : String → Int) (pd_ : String → Option Int)
    (rows : List CBRow) : List TenderData :=
  rows.filterMap (fun row =>
    match _parse_canadabuys_row pv pd_ row with
    | some t => if _is_training_related t then some t else none
    | none => none)

/-- One `<tr>` of the Alberta Purchasing Connection results table:
its cell texts and the optional href of the title cell's link. -/
structure AlbertaRow where
  cells : List String
  link : Option String
  deriving DecidableEq

/-- The tender dictionary `scan_alberta_purchasing` builds from one row
with at least 5 cells (`scrapers.py` 88-110). -/
def albertaTenderOfRow (pd_ : String → Option Int) (row : AlbertaRow) : TenderData :=
  { tender_id := (row.cells.getD 0 "")
    title := (row.cells.getD 1 "")
    organization := (row.cells.getD 2 "")
    portal := "Alberta Purchasing Connection"
    portal_url := ""
    value := 0
    closing_date := pd_ (row.cells.getD 4 "")
    posted_date := pd_ (row.cells.getD 3 "")
    description := ""
    location := "Alberta"
    tender_url :=
      match row.link with
      | some href => "https://vendor.purchasingconnection.ca/" ++ href
      | none => "https://vendor.purchasingconnection.ca/"
    categories := []
    keywords := []
    matching_courses := []
    priority := ""
    attachments := [] }

/-- `ProvincialScrapers.scan_alberta_purchasing` (`scrapers.py` 60-115):
appends a tender for every one of the first 30 result rows having at
least 5 cells. No relevance filter is applied before yielding. -/
def scan_alberta_purchasing (pd_ : String → Option Int)
    (rows : List AlbertaRow) : List TenderData :=
  (rows.take 30).filterMap (fun row =>
    if 5 ≤ row.cells.length then some (albertaTenderOfRow pd_ row) else none)

/-! ## Orchestrator (`tasks.py`: `_process_tenders`, `_execute_scans_async`) -/

/-- Per-portal counters of the run report. -/
structure PortalCounts where
  found : Nat
  created : Nat
  updated : Nat
  deriving DecidableEq

/-- The `results` dictionary of `scan_specific_portals_task`
(`tasks.py` 236). `by_portal` is the portal-name → counts dictionary,
modelled as a partial map; `errors` holds `(portal name, message)` pairs. -/
structure RunResults where
  scanned : List String
  total_found : Nat
  new_tenders : Nat
  updated_tenders : Nat
  errors : List (String × String)
  by_portal : String → Option PortalCounts

/-- Initial `results` value (`tasks.py` 236). -/
def initResults : RunResults :=
  { scanned := [], total_found := 0, new_tenders := 0, updated_tenders := 0,
    errors := [], by_portal := fun _ => none }

/-- `results['by_portal'][portal_name] = portal_results` (dict assignment). -/
def setPortal (bp : String → Option PortalCounts) (name : String)
    (pc : PortalCounts) : String → Option PortalCounts :=
  fun n => if n = name then some pc else bp n

/-- The per-record enrichment `_process_tenders` performs before saving
(`tasks.py` 153-154): `matching_courses`, then `priority` (which reads the
just-set `matching_courses`). -/
def enrich (now : Int) (t : TenderData) : TenderData :=
  let t1 := { t with matching_courses := match_courses t }
  { t1 with priority := calculate_priority now t1 }

/-- The record loop of `_process_tenders` (`tasks.py` 152-163): enrich and
save each record, counting `(new, updated)`; `save_tender_to_db` returning
`false` (updated, unchanged, or dropped) increments the `updated` counter. -/
def processLoop (now : Int) (db : List StoredTender) :
    List TenderData → Nat × Nat × List StoredTender
  | [] => (0, 0, db)
  | t :: rest =>
    let res := save_tender_to_db now db (enrich now t)
    let tail := processLoop now res.2 rest
    if res.1 then (tail.1 + 1, tail.2.1, tail.2.2)
    else (tail.1, tail.2.1 + 1, tail.2.2)

/-- `_process_tenders` (`tasks.py` 142-170). The `except` branch is
unreachable in the pure model (`save_tender_to_db` never raises there),
so the net effect of the loop is applied to `results` in one step. -/
def _process_tenders (now : Int) (tenders : List TenderData)
    (portal_name : String) (results : RunResults) (db : List StoredTender) :
    RunResults × List StoredTender :=
  if tenders.isEmpty then (results, db)
  else
    let pc0 := (results.by_portal portal_name).getD ⟨0, 0, 0⟩
    let r := processLoop now db tenders
    let pc : PortalCounts :=
      { found := pc0.found + tenders.length
        created := pc0.created + r.1
        updated := pc0.updated + r.2.1 }
    ({ results with
        total_found := results.total_found + tenders.length
        new_tenders := results.new_tenders + r.1
        updated_tenders := results.updated_tenders + r.2.1
        by_portal := setPortal results.by_portal portal_name pc },
     r.2.2)

/-- A portal's configured behaviour for one batch: its display name and
what its extractor does when invoked (yield records, or raise with a
message). The dispatch details (`PORTAL_CONFIGS` membership, alias
resolution, non-callable entries) collapse into `none` = skip. -/
structure PortalCfg where
  name : String
  result : Except String (List TenderData)

/-- `_execute_scans_async` (`tasks.py` 173-226): iterate the requested
portal ids; skip unknown ids; on a successful scan process any yielded
tenders and append the id to `scanned`; on an extractor exception append
`(portal name, message)` to `errors` and continue with the next portal —
the exception never propagates. -/
def _execute_scans_async (now : Int) (cfg : String → Option PortalCfg)
    (portal_ids : List String) (results : RunResults) (db : List StoredTender) :
    RunResults × List StoredTender :=
  match portal_ids with
  | [] => (results, db)
  | pid :: rest =>
    match cfg pid with
    | none => _execute_scans_async now cfg rest results db
    | some c =>
      match c.result with
      | .error msg =>
        _execute_scans_async now cfg rest
          { results with errors := results.errors ++ [(c.name, msg)] } db
      | .ok tenders =>
        let step :=
          if tenders.isEmpty then (results, db)
          else _process_tenders now tenders c.name results db
        _execute_scans_async now cfg rest
          { step.1 with scanned := step.1.scanned ++ [pid] } step.2

/-! ## Concrete sample inputs (used by witnesses and counterexamples) -/

/-- A minimal training-related raw record. -/
def tdSample : TenderData :=
  { tender_id := "T1", title := "training", organization := "O", portal := "P",
    portal_url := "", value := 0, closing_date := none, posted_date := none,
    description := "", location := "", tender_url := "", categories := [],
    keywords := [], matching_courses := [], priority := "", attachments := [] }

/-- The same identity as `tdSample` with changed content. -/
def tdChanged : TenderData :=
  { tdSample with title := "training updated", description := "new scope" }

/-- A record with an empty `tender_id` (dropped by `save_tender_to_db`). -/
def tdNoId : TenderData :=
  { tdSample with tender_id := "" }

/-- The stored row produced by first ingesting `tdSample` at time 5. -/
def rSample : StoredTender :=
  newTender 5 (contentHash tdSample) tdSample

/-- A training-related CanadaBuys CSV row. -/
def cbRow1 : CBRow :=
  { reference_number := "R1", title_en := "training", org_name_en := "Org",
    contract_value := "", date_closing := "", publication_date := "",
    description_en := "formation", delivery_region_en := "Canada" }

/-- An Alberta results row with no training-relevance term anywhere. -/
def albRow1 : AlbertaRow :=
  { cells := ["T-100", "Office furniture supply", "Dept of Infrastructure",
              "2024-01-01", "2024-02-01"],
    link := none }

/-- A three-portal batch configuration: `A` and `C` succeed with the given
yields, `B`'s extractor always raises `msg`. -/
def cfgABC (tA tC : List TenderData) (msg : String) : String → Option PortalCfg
  | "A" => some ⟨"PortalA", Except.ok tA⟩
  | "B" => some ⟨"PortalB", Except.error msg⟩
  | "C" => some ⟨"PortalC", Except.ok tC⟩
  | _ => none

/-! ## Helper lemmas -/

/-- `updateFirstRow` preserves the number of rows satisfying `q` whenever
the update function preserves `q` on rows it is applied to. -/
lemma length_filter_updateFirstRow (p q : StoredTender → Bool)
    (f : StoredTender → StoredTender)
    (hf : ∀ r, p r = true → q (f r) = q r) :
    ∀ db : List StoredTender,
      ((updateFirstRow p f db).filter q).length = (db.filter q).length := by
  intro db
  induction db with
  | nil => rfl
  | cons r rs ih =>
    by_cases hp : p r
    · simp only [updateFirstRow, hp, if_true, List.filter_cons, hf r hp]
      split <;> simp
    · simp only [updateFirstRow, hp, if_false, List.filter_cons, Bool.false_eq_true]
      split <;> simp [ih]

/-- A successful upsert preserves "at most one stored row per identity". -/
lemma countId_save_le (now : Int) (db : List StoredTender) (t : TenderData)
    (k : String) (h : countId db k ≤ 1) :
    countId (save_tender_to_db now db t).2 k ≤ 1 := by
  unfold save_tender_to_db
  by_cases hid : t.tender_id = ""
  · simpa [hid] using h
  · simp only [hid, if_false]
    cases hfind : db.find? (fun r => r.tender_id == t.tender_id) with
    | some r =>
      by_cases hh : r.hash == contentHash t
      · simpa [hfind, hh] using h
      · simp only [hfind, hh, Bool.false_eq_true, if_false]
        have hpres : ∀ s : StoredTender,
            (s.tender_id == t.tender_id) = true →
            ((applyUpdate now (contentHash t) t s).tender_id == k) =
              (s.tender_id == k) := by
          intro s hs
          have : s.tender_id = t.tender_id := by simpa using hs
          simp [applyUpdate, this]
        simpa [countId] using
          (length_filter_updateFirstRow _ (fun r => r.tender_id == k) _ hpres db) ▸ h
    | none =>
      simp only [hfind]
      have hnone : ∀ a ∈ db, ¬ (a.tender_id == t.tender_id) = true := by
        simpa [List.find?_eq_none] using hfind
      by_cases hk : t.tender_id = k
      · have hzero : countId db k = 0 := by
          simp only [countId, List.length_eq_zero, List.filter_eq_nil_iff]
          intro a ha hak
          exact hnone a ha (by simpa [hk] using hak)
        have : countId (db ++ [newTender now (contentHash t) t]) k =
            countId db k + 1 := by
          simp [countId, List.filter_append, newTender, hk]
        omega
      · have : countId (db ++ [newTender now (contentHash t) t]) k =
            countId db k := by
          simp [countId, List.filter_append, newTender, hk]
        omega


/-! ## Claims -/

/-- C1: the stored primary key derived from the identity
`(sourceName, externalId)` is the pure, deterministic string
`"<sourceName>_<externalId>"` (`portal` is the source name); two records
with equal identity derive the same key, and upserting both — over any
number of ingestion runs, starting from any store holding at most one row
for that identity — leaves at most one stored row for it, whatever their
other fields. -/
theorem C1_identity_determinism_and_convergence
    (t1 t2 : TenderData) (now1 now2 : Int) (db : List StoredTender) (k : String)
    (hp : t1.portal = t2.portal) (hid : t1.tender_id = t2.tender_id)
    (hinv : countId db k ≤ 1) :
    (newTender now1 (contentHash t1) t1).id = t1.portal ++ "_" ++ t1.tender_id ∧
    (newTender now1 (contentHash t1) t1).id = (newTender now2 (contentHash t2) t2).id ∧
    countId (save_tender_to_db now2 (save_tender_to_db now1 db t1).2 t2).2 k ≤ 1 := by
  refine ⟨rfl, ?_, ?_⟩
  · simp [newTender, hp, hid]
  · exact countId_save_le _ _ _ _ (countId_save_le _ _ _ _ hinv)

/-- Witness for C1 at `tdSample` / `tdChanged` (equal identity, differing
content) over the empty store. -/
theorem C1_witness :
    (tdSample.portal = tdChanged.portal ∧ tdSample.tender_id = tdChanged.tender_id ∧
      countId [] "T1" ≤ 1) ∧
    ((newTender 5 (contentHash tdSample) tdSample).id =
        tdSample.portal ++ "_" ++ tdSample.tender_id ∧
      (newTender 5 (contentHash tdSample) tdSample).id =
        (newTender 7 (contentHash tdChanged) tdChanged).id ∧
      countId (save_tender_to_db 7 (save_tender_to_db 5 [] tdSample).2 tdChanged).2 "T1" ≤ 1) :=
  ⟨⟨rfl, rfl, by decide⟩,
   C1_identity_determinism_and_convergence tdSample tdChanged 5 7 [] "T1" rfl rfl (by decide)⟩

/-- C2: upserting a record with a non-empty `externalId` absent from the
store, twice in sequence, returns Created (`true`) then Unchanged
(`false`), and the store after both calls equals the store after the
first call alone (the second call performs no write). -/
theorem C2_upsert_created_then_unchanged
    (now1 now2 : Int) (db : List StoredTender) (t : TenderData)
    (hne : t.tender_id ≠ "")
    (habsent : db.find? (fun r => r.tender_id == t.tender_id) = none) :
    (save_tender_to_db now1 db t).1 = true ∧
    (save_tender_to_db now2 (save_tender_to_db now1 db t).2 t).1 = false ∧
    (save_tender_to_db now2 (save_tender_to_db now1 db t).2 t).2 =
      (save_tender_to_db now1 db t).2 := by
  have h1 : save_tender_to_db now1 db t =
      (true, db ++ [newTender now1 (contentHash t) t]) := by
    simp [save_tender_to_db, hne, habsent]
  have hfind2 : (db ++ [newTender now1 (contentHash t) t]).find?
      (fun r => r.tender_id == t.tender_id) =
      some (newTender now1 (contentHash t) t) := by
    simp [List.find?_append, habsent, newTender]
  have h2 : save_tender_to_db now2 (db ++ [newTender now1 (contentHash t) t]) t =
      (false, db ++ [newTender now1 (contentHash t) t]) := by
    unfold save_tender_to_db
    rw [if_neg hne, hfind2]
    simp [newTender]
  rw [h1]
  exact ⟨rfl, by rw [h2], by rw [h2]⟩

/-- Witness for C2: `tdSample` upserted twice into the empty store. -/
theorem C2_witness :
    (tdSample.tender_id ≠ "" ∧
      ([] : List StoredTender).find? (fun r => r.tender_id == tdSample.tender_id) = none) ∧
    ((save_tender_to_db 5 [] tdSample).1 = true ∧
      (save_tender_to_db 7 (save_tender_to_db 5 [] tdSample).2 tdSample).1 = false ∧
      (save_tender_to_db 7 (save_tender_to_db 5 [] tdSample).2 tdSample).2 =
        (save_tender_to_db 5 [] tdSample).2) :=
  ⟨⟨by decide, rfl⟩,
   C2_upsert_created_then_unchanged 5 7 [] tdSample (by decide) rfl⟩

/-- C3: re-ingesting an identity already stored: with an equal content
hash nothing at all is written; with a differing hash the matched row —
and only the matched row — is overwritten on every canonical field, its
hash and `lastUpdated` are refreshed, while `downloadCount`, the storage
primary key `id` (and `isActive`) keep their stored values. -/
theorem C3_reingest_hash_frame
    (now : Int) (db : List StoredTender) (t : TenderData) (r : StoredTender)
    (hne : t.tender_id ≠ "")
    (hfind : db.find? (fun s => s.tender_id == t.tender_id) = some r) :
    (r.hash = contentHash t → save_tender_to_db now db t = (false, db)) ∧
    (r.hash ≠ contentHash t →
       save_tender_to_db now db t =
         (false, updateFirstRow (fun s => s.tender_id == t.tender_id)
                   (applyUpdate now (contentHash t) t) db)) ∧
    (∀ s : StoredTender,
       (applyUpdate now (contentHash t) t s).download_count = s.download_count ∧
       (applyUpdate now (contentHash t) t s).id = s.id ∧
       (applyUpdate now (contentHash t) t s).is_active = s.is_active ∧
       (applyUpdate now (contentHash t) t s).last_updated = now ∧
       (applyUpdate now (contentHash t) t s).hash = contentHash t ∧
       (applyUpdate now (contentHash t) t s).tender_id = t.tender_id ∧
       (applyUpdate now (contentHash t) t s).title = t.title ∧
       (applyUpdate now (contentHash t) t s).organization = t.organization ∧
       (applyUpdate now (contentHash t) t s).portal = t.portal ∧
       (applyUpdate now (contentHash t) t s).portal_url = t.portal_url ∧
       (applyUpdate now (contentHash t) t s).value = t.value ∧
       (applyUpdate now (contentHash t) t s).closing_date = t.closing_date ∧
       (applyUpdate now (contentHash t) t s).posted_date = t.posted_date ∧
       (applyUpdate now (contentHash t) t s).description = t.description ∧
       (applyUpdate now (contentHash t) t s).location = t.location ∧
       (applyUpdate now (contentHash t) t s).tender_url = t.tender_url ∧
       (applyUpdate now (contentHash t) t s).categories = jsonList t.categories ∧
       (applyUpdate now (contentHash t) t s).keywords = jsonList t.keywords ∧
       (applyUpdate now (contentHash t) t s).matching_courses = jsonList t.matching_courses ∧
       (applyUpdate now (contentHash t) t s).priority = t.priority ∧
       (applyUpdate now (contentHash t) t s).attachments = jsonList t.attachments) := by
  refine ⟨?_, ?_, ?_⟩
  · intro hh
    simp [save_tender_to_db, hne, hfind, hh]
  · intro hh
    have hb : (r.hash == contentHash t) = false := by
      simpa using hh
    simp [save_tender_to_db, hne, hfind, hb]
  · intro s
    refine ⟨rfl, rfl, rfl, rfl, rfl, rfl, rfl, rfl, rfl, rfl, rfl,
      rfl, rfl, rfl, rfl, rfl, rfl, rfl, rfl, rfl, rfl⟩

/-- Witness for C3: `tdChanged` re-ingested over the store holding
`rSample` (same identity, differing hash). -/
theorem C3_witness :
    (tdChanged.tender_id ≠ "" ∧
      [rSample].find? (fun s => s.tender_id == tdChanged.tender_id) = some rSample ∧
      rSample.hash ≠ contentHash tdChanged) ∧
    save_tender_to_db 9 [rSample] tdChanged =
      (false, updateFirstRow (fun s => s.tender_id == tdChanged.tender_id)
                (applyUpdate 9 (contentHash tdChanged) tdChanged) [rSample]) :=
  ⟨⟨by decide, by decide, by decide⟩,
   (C3_reingest_hash_frame 9 [rSample] tdChanged rSample (by decide) (by decide)).2.1
     (by decide)⟩



/-- Category names in the taxonomy are pairwise distinct. -/
lemma TKA_names_nodup : (TKA_COURSES.map (fun e => e.1)).Nodup := by decide

/-- C4: `classify` assigns a category to a text iff at least 2 of that
category's keywords occur as substrings of the lower-cased text; a text
containing exactly one keyword of a category leaves it unassigned. -/
theorem C4_classification_threshold (text cat : String) :
    (cat ∈ _extract_categories_from_text text ↔
       ∃ e ∈ TKA_COURSES, e.1 = cat ∧ 2 ≤ matchCount e (lowerStr text)) ∧
    (∀ e ∈ TKA_COURSES, e.1 = cat → matchCount e (lowerStr text) = 1 →
       cat ∉ _extract_categories_from_text text) := by
  have hiff : cat ∈ _extract_categories_from_text text ↔
      ∃ e ∈ TKA_COURSES, e.1 = cat ∧ 2 ≤ matchCount e (lowerStr text) := by
    simp only [_extract_categories_from_text, List.mem_map, List.mem_filter,
      decide_eq_true_eq]
    constructor
    · rintro ⟨e, ⟨he, hc⟩, hname⟩
      exact ⟨e, he, hname, hc⟩
    · rintro ⟨e, he, hname, hc⟩
      exact ⟨e, ⟨he, hc⟩, hname⟩
  refine ⟨hiff, ?_⟩
  rintro e he hname hone hmem
  obtain ⟨e2, he2, hname2, hc2⟩ := hiff.mp hmem
  have he2e : e2 = e :=
    List.inj_on_of_nodup_map TKA_names_nodup he2 he (by rw [hname2, hname])
  rw [he2e, hone] at hc2
  omega

/-- Witness for C4: two keywords of `agile-scrum` assign it; a text with
exactly one of its keywords does not. -/
theorem C4_witness :
    ("agile-scrum" ∈ _extract_categories_from_text "agile and scrum master needed") ∧
    ("agile-scrum" ∉ _extract_categories_from_text "we need agile expertise") := by
  constructor
  · exact (C4_classification_threshold "agile and scrum master needed" "agile-scrum").1.mpr
      ⟨TKA_COURSES.getD 3 ("", ([], [])), by decide, by decide, by decide⟩
  · exact (C4_classification_threshold "we need agile expertise" "agile-scrum").2
      (TKA_COURSES.getD 3 ("", ([], []))) (by decide) (by decide) (by decide)

/-- `calculatePriority` exactly as the specification words it: individual
rules evaluated in order, first match wins; `daysUntilClosing` is the
floor of `closingAt − now` in whole days. -/
def prioritySpec (now : Int) (t : TenderData) : String :=
  match t.closing_date with
  | none => "low"
  | some closingAt =>
    let daysUntilClosing : Int := (closingAt - now).fdiv 86400
    if t.value > 1000000 then "high"
    else if daysUntilClosing < 7 then "high"
    else if 3 ≤ t.matching_courses.length then "high"
    else if 2 ≤ t.categories.length then "high"
    else if t.value > 500000 then "medium"
    else if daysUntilClosing < 14 then "medium"
    else if 1 ≤ t.matching_courses.length then "medium"
    else "low"

/-- C5: `calculate_priority` agrees with the specification's ordered
rule list everywhere; in particular an unset `closingAt` yields `low`,
and a negative `daysUntilClosing` (already closed) yields `high`. -/
theorem C5_priority_rules (now : Int) (t : TenderData) :
    calculate_priority now t = prioritySpec now t ∧
    (t.closing_date = none → calculate_priority now t = "low") ∧
    (∀ cd : Int, t.closing_date = some cd → (cd - now).fdiv 86400 < 0 →
       calculate_priority now t = "high") := by
  refine ⟨?_, ?_, ?_⟩
  · unfold calculate_priority prioritySpec
    cases t.closing_date with
    | none => rfl
    | some cd =>
      dsimp only
      split_ifs <;> tauto
  · intro h
    simp [calculate_priority, h]
  · intro cd hcd hneg
    have h7 : (cd - now).fdiv 86400 < 7 := lt_trans hneg (by norm_num)
    unfold calculate_priority
    rw [hcd]
    exact if_pos (Or.inr (Or.inl h7))

/-- The specification's worked example: `value = 2,000,000`, closing in
30 days, 0 matched offerings, 1 category. -/
def tdBigValue : TenderData :=
  { tdSample with value := 2000000, closing_date := some (30 * 86400), categories := ["x"] }

/-- An already-closed record (closing one day before `now = 0`). -/
def tdClosed : TenderData :=
  { tdSample with closing_date := some (-86400) }

/-- Witness for C5, including the specification's worked example
(`value = 2,000,000`, closing in 30 days, 0 offerings, 1 category →
`high` by the value rule). -/
theorem C5_witness :
    calculate_priority 0 tdBigValue = "high" ∧
    (tdSample.closing_date = none ∧ calculate_priority 0 tdSample = "low") ∧
    (tdClosed.closing_date = some (-86400) ∧
      (-86400 - 0 : Int).fdiv 86400 < 0 ∧
      calculate_priority 0 tdClosed = "high") :=
  ⟨by decide,
   ⟨rfl, (C5_priority_rules 0 tdSample).2.1 rfl⟩,
   ⟨rfl, by decide,
    (C5_priority_rules 0 tdClosed).2.2 (-86400) rfl (by decide)⟩⟩

/-- `_process_tenders` never touches the `errors` list. -/
lemma process_errors (now : Int) (tenders : List TenderData) (name : String)
    (results : RunResults) (db : List StoredTender) :
    (_process_tenders now tenders name results db).1.errors = results.errors := by
  unfold _process_tenders
  split <;> rfl

/-- `_process_tenders` never touches the `scanned` list. -/
lemma process_scanned (now : Int) (tenders : List TenderData) (name : String)
    (results : RunResults) (db : List StoredTender) :
    (_process_tenders now tenders name results db).1.scanned = results.scanned := by
  unfold _process_tenders
  split <;> rfl

/-- Processing a non-empty yield populates `by_portal` for that portal. -/
lemma process_by_portal_self (now : Int) (tenders : List TenderData) (name : String)
    (results : RunResults) (db : List StoredTender) (h : tenders ≠ []) :
    ((_process_tenders now tenders name results db).1.by_portal name).isSome = true := by
  have hE : tenders.isEmpty = false := by simp [List.isEmpty_eq_false, h]
  unfold _process_tenders
  rw [hE]
  simp [setPortal]

/-- Processing one portal's yield leaves every other portal's
`by_portal` entry unchanged. -/
lemma process_by_portal_other (now : Int) (tenders : List TenderData) (name : String)
    (results : RunResults) (db : List StoredTender) (n : String) (hn : n ≠ name) :
    (_process_tenders now tenders name results db).1.by_portal n =
      results.by_portal n := by
  unfold _process_tenders
  split
  · rfl
  · simp [setPortal, hn]

/-- The batch loop on an exhausted id list returns its accumulators. -/
lemma exec_nil (now : Int) (cfg : String → Option PortalCfg)
    (results : RunResults) (db : List StoredTender) :
    _execute_scans_async now cfg [] results db = (results, db) := rfl

/-- Unfolding one successful, non-empty scan step of the batch loop. -/
lemma exec_cons_ok (now : Int) (cfg : String → Option PortalCfg) (pid : String)
    (rest : List String) (results : RunResults) (db : List StoredTender)
    (c : PortalCfg) (tenders : List TenderData)
    (hcfg : cfg pid = some c) (hres : c.result = Except.ok tenders)
    (hne : tenders ≠ []) :
    _execute_scans_async now cfg (pid :: rest) results db =
      _execute_scans_async now cfg rest
        { (_process_tenders now tenders c.name results db).1 with
          scanned := (_process_tenders now tenders c.name results db).1.scanned ++ [pid] }
        (_process_tenders now tenders c.name results db).2 := by
  have hE : tenders.isEmpty = false := by simp [List.isEmpty_eq_false, hne]
  conv_lhs => unfold _execute_scans_async
  rw [hcfg]
  dsimp only
  rw [hres]
  dsimp only
  rw [hE]
  simp only [Bool.false_eq_true, if_false]

/-- Unfolding one failing scan step of the batch loop. -/
lemma exec_cons_err (now : Int) (cfg : String → Option PortalCfg) (pid : String)
    (rest : List String) (results : RunResults) (db : List StoredTender)
    (c : PortalCfg) (msg : String)
    (hcfg : cfg pid = some c) (hres : c.result = Except.error msg) :
    _execute_scans_async now cfg (pid :: rest) results db =
      _execute_scans_async now cfg rest
        { results with errors := results.errors ++ [(c.name, msg)] } db := by
  conv_lhs => unfold _execute_scans_async
  rw [hcfg]
  dsimp only
  rw [hres]

/-- C6 counterexample: three sources `A`, `B`, `C` where only `B`'s
extractor raises, but `A` and `C` yield zero records. The run's `errors`
is exactly `B` — yet `by_portal` has no entry for `A`, refuting the claim
that `byPortal` is populated for every non-failing source. -/
theorem C6_counterexample :
    ((_execute_scans_async 0 (cfgABC [] [] "boom") ["A", "B", "C"] initResults []).1.errors
        = [("PortalB", "boom")]) ∧
    ((_execute_scans_async 0 (cfgABC [] [] "boom") ["A", "B", "C"] initResults []).1.by_portal
        "PortalA" = none) := by
  constructor <;> rfl

/-- C6 (amended): one source's extractor exception is recorded in
`errors` with the portal name and message, and the remaining sources are
still processed (`scanned` lists them); `by_portal` is populated for each
non-failing source that yields at least one record. -/
theorem C6_fault_isolation (now : Int) (tA tC : List TenderData) (msg : String)
    (db : List StoredTender) (hA : tA ≠ []) (hC : tC ≠ []) :
    ((_execute_scans_async now (cfgABC tA tC msg) ["A", "B", "C"] initResults db).1.errors
        = [("PortalB", msg)]) ∧
    ((_execute_scans_async now (cfgABC tA tC msg) ["A", "B", "C"] initResults db).1.scanned
        = ["A", "C"]) ∧
    (((_execute_scans_async now (cfgABC tA tC msg) ["A", "B", "C"] initResults db).1.by_portal
        "PortalA").isSome = true) ∧
    (((_execute_scans_async now (cfgABC tA tC msg) ["A", "B", "C"] initResults db).1.by_portal
        "PortalC").isSome = true) := by
  rw [exec_cons_ok now (cfgABC tA tC msg) "A" ["B", "C"] initResults db
        ⟨"PortalA", Except.ok tA⟩ tA rfl rfl hA]
  rw [exec_cons_err now (cfgABC tA tC msg) "B" ["C"] _ _
        ⟨"PortalB", Except.error msg⟩ msg rfl rfl]
  rw [exec_cons_ok now (cfgABC tA tC msg) "C" [] _ _
        ⟨"PortalC", Except.ok tC⟩ tC rfl rfl hC]
  rw [exec_nil]
  dsimp only
  refine ⟨?_, ?_, ?_, ?_⟩
  · rw [process_errors]
    dsimp only
    rw [process_errors]
    rfl
  · rw [process_scanned]
    dsimp only
    rw [process_scanned]
    rfl
  · rw [process_by_portal_other now tC _ _ _ "PortalA" (by decide)]
    dsimp only
    exact process_by_portal_self now tA _ initResults db hA
  · exact process_by_portal_self now tC _ _ _ hC

/-- Witness for C6 (amended): concrete one-record yields for `A` and `C`. -/
theorem C6_witness :
    (([tdSample] : List TenderData) ≠ [] ∧ ([tdChanged] : List TenderData) ≠ []) ∧
    ((_execute_scans_async 0 (cfgABC [tdSample] [tdChanged] "boom") ["A", "B", "C"]
          initResults []).1.errors = [("PortalB", "boom")] ∧
      (_execute_scans_async 0 (cfgABC [tdSample] [tdChanged] "boom") ["A", "B", "C"]
          initResults []).1.scanned = ["A", "C"] ∧
      ((_execute_scans_async 0 (cfgABC [tdSample] [tdChanged] "boom") ["A", "B", "C"]
          initResults []).1.by_portal "PortalA").isSome = true ∧
      ((_execute_scans_async 0 (cfgABC [tdSample] [tdChanged] "boom") ["A", "B", "C"]
          initResults []).1.by_portal "PortalC").isSome = true) :=
  ⟨⟨by simp, by simp⟩,
   C6_fault_isolation 0 [tdSample] [tdChanged] "boom" [] (by simp) (by simp)⟩

/-- C7 counterexample: a full invocation of the Alberta extractor yields
exactly one record, and that record contains no training-relevance term
(the claim asserts every yielded record contains one). -/
theorem C7_counterexample :
    (scan_alberta_purchasing (fun _ => none) [albRow1]).map _is_training_related
      = [false] := by
  decide

/-- C7 (amended): extractors implemented in `main.py` (CanadaBuys shown)
apply the training-relevance filter before yielding — every yielded record
satisfies `_is_training_related` — but the extractors in `scrapers.py`
(Alberta Purchasing Connection shown) yield without applying the filter,
so their records may contain no relevance term. -/
theorem C7_relevance_filter :
    (∀ (pv : String → Int) (pd_ : String → Option Int) (rows : List CBRow),
       (scan_canadabuys pv pd_ rows).all _is_training_related = true) ∧
    ((scan_alberta_purchasing (fun _ => none) [albRow1]).all _is_training_related
       = false) := by
  constructor
  · intro pv pd_ rows
    induction rows with
    | nil => rfl
    | cons r rest ih =>
      simp only [scan_canadabuys] at ih ⊢
      rw [List.filterMap_cons]
      cases hp : _parse_canadabuys_row pv pd_ r with
      | none => simpa using ih
      | some t =>
        cases ht : _is_training_related t with
        | false => simpa [ht] using ih
        | true => simp [ht, ih]
  · decide

/-- C8 counterexample: one invocation of the CanadaBuys extractor over a
31-row CSV yields all 31 records — more than the claimed 20–30 cap. -/
theorem C8_counterexample :
    (scan_canadabuys (fun _ => 0) (fun _ => none) (List.replicate 31 cbRow1)).length = 31 ∧
    30 < (scan_canadabuys (fun _ => 0) (fun _ => none) (List.replicate 31 cbRow1)).length := by
  exact ⟨by decide, by decide⟩

/-- C8 (amended): the Selenium-based scrapers are capped per invocation
(the Alberta extractor processes at most the first 30 result rows), but
`scan_canadabuys` is uncapped: it yields one record per CSV row passing
the relevance filter, however many rows the upstream offers. -/
theorem C8_per_invocation_cap :
    (∀ (pd_ : String → Option Int) (rows : List AlbertaRow),
       (scan_alberta_purchasing pd_ rows).length ≤ 30) ∧
    ((scan_canadabuys (fun _ => 0) (fun _ => none) (List.replicate 40 cbRow1)).length
       = 40) := by
  constructor
  · intro pd_ rows
    calc (scan_alberta_purchasing pd_ rows).length
        ≤ (rows.take 30).length := List.length_filterMap_le _ _
      _ ≤ 30 := List.length_take_le _ _
  · decide

/-- C9 counterexample: the detail endpoint mutates the store — serving
tender `"P_T1"` changes its stored row (its `download_count`). -/
theorem C9_counterexample :
    (get_tender_detail [rSample] "P_T1").2 ≠ [rSample] := by
  decide

/-- C9 (amended): the detail endpoint is not read-only: it increments the
requested row's `downloadCount` by one and commits, leaving every other
field of that row (and the rest of the store) unchanged; a miss leaves
the store untouched. (`list`, `stats` and `exportCsv` perform no writes.) -/
theorem C9_detail_mutation (db : List StoredTender) (tid : String) :
    (db.find? (fun r => r.id == tid) = none → get_tender_detail db tid = (none, db)) ∧
    (∀ r, db.find? (fun r => r.id == tid) = some r →
       get_tender_detail db tid =
         (some (bumpDownload r), updateFirstRow (fun s => s.id == tid) bumpDownload db)) ∧
    (∀ r : StoredTender,
       (bumpDownload r).download_count = r.download_count + 1 ∧
       (bumpDownload r).id = r.id ∧
       (bumpDownload r).tender_id = r.tender_id ∧
       (bumpDownload r).title = r.title ∧
       (bumpDownload r).organization = r.organization ∧
       (bumpDownload r).portal = r.portal ∧
       (bumpDownload r).value = r.value ∧
       (bumpDownload r).closing_date = r.closing_date ∧
       (bumpDownload r).description = r.description ∧
       (bumpDownload r).hash = r.hash ∧
       (bumpDownload r).last_updated = r.last_updated ∧
       (bumpDownload r).is_active = r.is_active) := by
  refine ⟨?_, ?_, ?_⟩
  · intro h
    simp [get_tender_detail, h]
  · intro r h
    simp [get_tender_detail, h]
  · intro r
    exact ⟨rfl, rfl, rfl, rfl, rfl, rfl, rfl, rfl, rfl, rfl, rfl, rfl⟩

/-- Witness for C9 (amended): serving the stored `rSample` row. -/
theorem C9_witness :
    ([rSample].find? (fun r => r.id == "P_T1") = some rSample) ∧
    get_tender_detail [rSample] "P_T1" =
      (some (bumpDownload rSample),
        updateFirstRow (fun s => s.id == "P_T1") bumpDownload [rSample]) :=
  ⟨by decide, (C9_detail_mutation [rSample] "P_T1").2.1 rSample (by decide)⟩

/-- C10: each record of a portal's batch increments exactly one of the
new/updated counters (`processLoop` partitions the batch, so
new + updated = number of records processed); a record with an empty
`tender_id` is dropped by the store yet returns not-new and so counts as
updated; consequently a portal entry written by `_process_tenders`
satisfies `found = new + updated` whenever the entry it extends did. -/
theorem C10_found_eq_new_plus_updated (now : Int) (db : List StoredTender)
    (tenders : List TenderData) (name : String) (results : RunResults)
    (hinv : ∀ pc, results.by_portal name = some pc →
      pc.found = pc.created + pc.updated) :
    ((processLoop now db tenders).1 + (processLoop now db tenders).2.1
        = tenders.length) ∧
    (∀ td : TenderData, td.tender_id = "" →
       save_tender_to_db now db td = (false, db)) ∧
    (∀ pc, (_process_tenders now tenders name results db).1.by_portal name = some pc →
       pc.found = pc.created + pc.updated) := by
  have hlen : ∀ (db' : List StoredTender) (ts : List TenderData),
      (processLoop now db' ts).1 + (processLoop now db' ts).2.1 = ts.length := by
    intro db' ts
    induction ts generalizing db' with
    | nil => rfl
    | cons t rest ih =>
      have hrest := ih (save_tender_to_db now db' (enrich now t)).2
      cases hr : (save_tender_to_db now db' (enrich now t)).1 <;>
        simp only [processLoop, hr, if_true, if_false, Bool.false_eq_true,
          List.length_cons] <;>
        omega
  refine ⟨hlen db tenders, ?_, ?_⟩
  · intro td h
    simp [save_tender_to_db, h]
  · intro pc hpc
    unfold _process_tenders at hpc
    cases hE : tenders.isEmpty with
    | true =>
      rw [hE] at hpc
      simp only [if_true] at hpc
      exact hinv pc hpc
    | false =>
      rw [hE] at hpc
      simp only [Bool.false_eq_true, if_false, setPortal, eq_self_iff_true,
        if_true, Option.some.injEq] at hpc
      have h0 : ((results.by_portal name).getD ⟨0, 0, 0⟩).found =
          ((results.by_portal name).getD ⟨0, 0, 0⟩).created +
          ((results.by_portal name).getD ⟨0, 0, 0⟩).updated := by
        cases hbp : results.by_portal name with
        | none => rfl
        | some pc0 => simpa using hinv pc0 hbp
      have hl := hlen db tenders
      rw [← hpc]
      dsimp only
      omega

/-- Witness for C10: a two-record batch (one fresh record, one with an
empty `tender_id`) for portal `"P"` starting from empty results. -/
theorem C10_witness :
    ((processLoop 0 [] [tdSample, tdNoId]).1 +
        (processLoop 0 [] [tdSample, tdNoId]).2.1 = 2) ∧
    (tdNoId.tender_id = "" ∧ save_tender_to_db 0 [] tdNoId = (false, [])) ∧
    (∀ pc, (_process_tenders 0 [tdSample, tdNoId] "P" initResults []).1.by_portal "P"
          = some pc → pc.found = pc.created + pc.updated) :=
  let thm := C10_found_eq_new_plus_updated 0 [] [tdSample, tdNoId] "P" initResults
    (fun _ h => Option.noConfusion h)
  ⟨thm.1, ⟨rfl, thm.2.1 tdNoId rfl⟩, thm.2.2⟩

end ProcScan
